import Mathlib

/-!
Shallow embedding of the onkernel/cli example applications: the browser-session
lifecycle wrapper (`kernel_session.py`) and the seven HTTP-invokable actions
across the six Python source files.  External platform calls and locally
observable effects are recorded as a trace of `Event`s; the external platform's
responses are supplied by an `Env` record.
-/

namespace OnkernelCli

/-- A platform API call or locally observable effect emitted by the examples. -/
inductive Event where
  | createSession (sid : String)
  | replayStart (sid : String)
  | replayStop (rid sid : String)
  | replayList (sid : String)
  | replayDownload (rid sid : String)
  | deleteSession (sid : String)
  | sleep (seconds : Nat)
  | warn (msg : String)
  | writeFile (path : String)
deriving DecidableEq, Repr

/-- Calls that reach the remote platform (as opposed to local sleeps/prints). -/
def Event.isPlatformCall : Event → Bool
  | .createSession _ => true
  | .replayStart _ => true
  | .replayStop _ _ => true
  | .replayList _ => true
  | .replayDownload _ _ => true
  | .deleteSession _ => true
  | _ => false

def Event.isCreate : Event → Bool
  | .createSession _ => true
  | _ => false

def Event.isDelete : Event → Bool
  | .deleteSession _ => true
  | _ => false

/-- Replay-related platform calls: start, stop, list, download. -/
def Event.isReplayCall : Event → Bool
  | .replayStart _ => true
  | .replayStop _ _ => true
  | .replayList _ => true
  | .replayDownload _ _ => true
  | _ => false

/-- One replay record as returned by the platform's replay-list endpoint. -/
structure ReplayInfo where
  replay_id : String
  replay_view_url : String
deriving DecidableEq, Repr

/-- The external platform's behaviour for one invocation: the ids it hands
out, the outcome of each readiness-poll attempt (`.error` models a raised
exception during the list call), and whether the download succeeds. -/
structure Env where
  sessionId : String
  liveViewUrl : String
  replayId : String
  listAt : Nat → Except Unit (List ReplayInfo)
  downloadOk : Bool

/-- The Kernel SDK client object (opaque; only its identity matters). -/
structure Kernel where
deriving DecidableEq, Repr

/-- State of `KernelBrowserSession` (kernel_session.py); `kernelClient`
embeds the `_kernel` field.  The float grace period is held in whole
seconds. -/
structure KernelBrowserSession where
  viewport_width : Nat := 1920
  viewport_height : Nat := 1080
  stealth : Bool := true
  timeout_seconds : Nat := 300
  record_replay : Bool := true
  replay_output_path : String := "replay.mp4"
  replay_framerate : Nat := 30
  replay_grace_period : Nat := 5
  session_id : Option String := none
  live_view_url : Option String := none
  replay_id : Option String := none
  replay_view_url : Option String := none
  kernelClient : Option Kernel := none
deriving DecidableEq, Repr

/-- `KernelBrowserSession._start_replay`: start recording if the client and
session exist, storing the returned replay id. -/
def startReplay (env : Env) (s : KernelBrowserSession) :
    KernelBrowserSession × List Event :=
  match s.kernelClient, s.session_id with
  | some _, some sid =>
      ({ s with replay_id := some env.replayId }, [Event.replayStart sid])
  | _, _ => (s, [])

/-- `KernelBrowserSession.__aenter__`: create the browser, record its ids,
and start a replay when `record_replay` is set. -/
def aenter (env : Env) (s : KernelBrowserSession) :
    KernelBrowserSession × List Event :=
  let s1 := { s with
    kernelClient := some ⟨⟩
    session_id := some env.sessionId
    live_view_url := some env.liveViewUrl }
  if s1.record_replay then
    ((startReplay env s1).1,
      Event.createSession env.sessionId :: (startReplay env s1).2)
  else
    (s1, [Event.createSession env.sessionId])

/-- `findReplay` mirrors the `for replay in replays` scan: the first list
entry whose `replay_id` matches. -/
def findReplay (rid : String) : List ReplayInfo → Option ReplayInfo
  | [] => none
  | r :: rs => if r.replay_id = rid then some r else findReplay rid rs

/-- Outcome of poll attempt `k`: `some r` when the list call succeeded and
contained the replay; `none` when the call raised or the replay was absent
(both are treated identically by the loop). -/
def attemptReady (env : Env) (rid : String) (k : Nat) : Option ReplayInfo :=
  match env.listAt k with
  | .error _ => none
  | .ok rs => findReplay rid rs

/-- The readiness-polling `while` loop.  Attempt `k` happens at elapsed time
`k` seconds (each retry sleeps 1 s); the loop body runs while the elapsed
time is below the 60 s budget, so `fuel` counts the remaining attempts.
Returns the `replay_view_url` assigned on success, `none` on budget
exhaustion. -/
def pollLoop (env : Env) (rid sid : String) : Nat → Nat → Option String × List Event
  | _, 0 => (none, [])
  | k, fuel + 1 =>
    match attemptReady env rid k with
    | some r => (some r.replay_view_url, [Event.replayList sid])
    | none =>
        ((pollLoop env rid sid (k + 1) fuel).1,
          Event.replayList sid :: Event.sleep 1 :: (pollLoop env rid sid (k + 1) fuel).2)

/-- `max_wait = 60` seconds, one attempt per second. -/
def maxWait : Nat := 60

/-- `KernelBrowserSession._stop_and_download_replay`: stop the recording,
wait 2 s, poll for readiness, warn if the budget expired, then attempt the
download regardless, swallowing download errors. -/
def stopAndDownloadReplay (env : Env) (s : KernelBrowserSession) :
    KernelBrowserSession × List Event :=
  match s.kernelClient, s.session_id, s.replay_id with
  | some _, some sid, some rid =>
      let res := (pollLoop env rid sid 0 maxWait).1
      let s1 := match res with
        | some url => { s with replay_view_url := some url }
        | none => s
      let warnEvs := match res with
        | some _ => ([] : List Event)
        | none => [Event.warn "Replay may still be processing"]
      let dlEvs :=
        if env.downloadOk then
          [Event.replayDownload rid sid, Event.writeFile s.replay_output_path]
        else
          [Event.replayDownload rid sid, Event.warn "Error downloading replay"]
      (s1, Event.replayStop rid sid :: Event.sleep 2 ::
        ((pollLoop env rid sid 0 maxWait).2 ++ warnEvs ++ dlEvs))
  | _, _, _ => (s, [])

/-- `KernelBrowserSession.__aexit__` before the field resets: optional grace
wait and replay stop/download when recording was active, then delete the
session. -/
def aexitCore (env : Env) (s : KernelBrowserSession) :
    KernelBrowserSession × List Event :=
  match s.kernelClient, s.session_id with
  | some _, some sid =>
      if s.record_replay && s.replay_id.isSome then
        let graceEvs :=
          if s.replay_grace_period > 0 then
            [Event.sleep s.replay_grace_period]
          else ([] : List Event)
        ((stopAndDownloadReplay env s).1,
          (graceEvs ++ (stopAndDownloadReplay env s).2) ++ [Event.deleteSession sid])
      else
        (s, [Event.deleteSession sid])
  | _, _ => (s, [])

/-- `KernelBrowserSession.__aexit__`: the core teardown, then reset
`session_id`, `replay_id`, and the client field to `None`. -/
def aexit (env : Env) (s : KernelBrowserSession) :
    KernelBrowserSession × List Event :=
  ({ (aexitCore env s).1 with
      session_id := none, replay_id := none, kernelClient := none },
    (aexitCore env s).2)

/-- The `kernel` property: raise `RuntimeError` when the client is absent,
otherwise return it. -/
def KernelBrowserSession.kernel (s : KernelBrowserSession) : Except String Kernel :=
  match s.kernelClient with
  | none => .error "Session not initialized. Use async with context."
  | some k => .ok k

/-- One `async with KernelBrowserSession(...)` block around a body that either
returns a value or raises.  `__aexit__` runs on both paths; a body exception
propagates afterwards (the exit hook returns `None`, which does not suppress
it).  The final state is also returned so callers can read fields after the
block. -/
def withSession {α : Type} (env : Env) (cfg : KernelBrowserSession)
    (body : KernelBrowserSession → Except String α) :
    Except String (α × KernelBrowserSession) × List Event :=
  let s1 := (aenter env cfg).1
  let tr := (aenter env cfg).2 ++ (aexit env s1).2
  match body s1 with
  | .ok a => (.ok (a, (aexit env s1).1), tr)
  | .error e => (.error e, tr)

/-! ### The seven actions -/

/-- JSON-like values returned by actions. -/
inductive JVal where
  | jstr (s : String)
  | jbool (b : Bool)
  | jnull
  | jobj (fields : List (String × JVal))

/-- Python truthiness of an optional string field read with `.get`:
missing payload, missing key, or empty string are all falsy. -/
def strFieldMissing : Option (Option String) → Bool
  | none => true
  | some none => true
  | some (some t) => t.isEmpty

/-- Python truthiness of the `todos` field: missing payload, missing key, or
empty list are falsy. -/
def todosMissing : Option (Option (List String)) → Bool
  | none => true
  | some none => true
  | some (some l) => l.isEmpty

/-- How Python renders a `bool` inside an f-string. -/
def pyBool : Bool → String := fun b => if b then "True" else "False"

def optStrToJ : Option String → JVal
  | none => JVal.jnull
  | some u => JVal.jstr u

namespace PythonBu

/-- `TaskInput`; `none` models an absent `task` key. -/
structure TaskInput where
  task : Option String

/-- The browser-use agent's run history (`final_result()` / `errors()`). -/
structure AgentHistory where
  final_result : Option String
  errors : String

/-- External behaviour for one `bu-task` invocation. -/
structure BuEnv where
  sessionId : String
  remoteUrl : String
  agentOutcome : Except String AgentHistory

/-- `bu_task` (src/examples/python-bu/main.py): creates a session, runs the
agent, and returns `final_result` or `errors`.  No validation and no
deletion; a missing `task` key raises only after the session is created. -/
def bu_task (env : BuEnv) (input : TaskInput) : Except String JVal × List Event :=
  let evs := [Event.createSession env.sessionId]
  match input.task with
  | none => (.error "KeyError: task", evs)
  | some _ =>
    match env.agentOutcome with
    | .error e => (.error e, evs)
    | .ok h =>
      match h.final_result with
      | some r => (.ok (.jobj [("final_result", .jstr r)]), evs)
      | none => (.ok (.jobj [("errors", .jstr h.errors)]), evs)

end PythonBu

namespace CaptchaSolver

/-- External behaviour for one `test-captcha-solver` invocation; `navOutcome`
is the playwright navigation block, which may raise. -/
structure CaptchaEnv where
  sessionId : String
  liveViewUrl : String
  navOutcome : Except String Unit

/-- `test_captcha_solver` (captcha-solver/main.py): create with stealth, run
the navigation in a `try`, delete the session in `finally`, return `None`. -/
def test_captcha_solver (env : CaptchaEnv) : Except String JVal × List Event :=
  let evs := [Event.createSession env.sessionId]
  match env.navOutcome with
  | .ok _ => (.ok .jnull, evs ++ [Event.deleteSession env.sessionId])
  | .error e => (.error e, evs ++ [Event.deleteSession env.sessionId])

end CaptchaSolver

namespace OpenaiCua

/-- `CuaInput`; `none` models an absent `task` key. -/
structure CuaInput where
  task : Option String

/-- External behaviour for one `cua-task` invocation; `agentOutcome` is the
result string produced by `run_agent`, or the exception it raised. -/
structure CuaEnv where
  sessionId : String
  liveViewUrl : String
  agentOutcome : Except String String

/-- `cua_task` (openai-computer-use/main.py): validate `task`, create the
session, run the agent in a `try`, delete the session in `finally`, and
return `{"result": ...}`. -/
def cua_task (env : CuaEnv) (payload : Option CuaInput) :
    Except String JVal × List Event :=
  if strFieldMissing (payload.map (·.task)) then
    (.error "task is required", [])
  else
    let evs := [Event.createSession env.sessionId]
    match env.agentOutcome with
    | .ok r =>
        (.ok (.jobj [("result", .jstr r)]), evs ++ [Event.deleteSession env.sessionId])
    | .error e => (.error e, evs ++ [Event.deleteSession env.sessionId])

end OpenaiCua

namespace OagiCua

structure DefaultAgentInput where
  instruction : Option String := none
  model : Option String := none

structure TaskerAgentInput where
  task : Option String := none
  todos : Option (List String) := none

/-- Platform behaviour plus the agent's outcome (`success` flag or a raised
exception). -/
structure AgentEnv where
  platform : Env
  agentOutcome : Except String Bool

/-- `oagi_default_task` (oagi-cua/main.py): validate `instruction`, run the
agent inside `KernelBrowserSession(record_replay=False)`, return
`{success, result}`. -/
def oagi_default_task (aEnv : AgentEnv) (payload : Option DefaultAgentInput) :
    Except String JVal × List Event :=
  if strFieldMissing (payload.map (·.instruction)) then
    (.error "instruction is required", [])
  else
    let model := (payload.bind (·.model)).getD "lux-actor-1"
    let res := (withSession aEnv.platform { record_replay := false }
      (fun _ => aEnv.agentOutcome)).1
    let tr := (withSession aEnv.platform { record_replay := false }
      (fun _ => aEnv.agentOutcome)).2
    match res with
    | .ok (success, _) =>
        (.ok (.jobj [("success", .jbool success),
          ("result", .jstr ("Task completed with model " ++ model
            ++ ". Success: " ++ pyBool success))]), tr)
    | .error e => (.error e, tr)

/-- `oagi_tasker_task` (oagi-cua/main.py): validate `task` and `todos`, run
the tasker agent inside `KernelBrowserSession(record_replay=False)`, return
`{success, result}`. -/
def oagi_tasker_task (aEnv : AgentEnv) (payload : Option TaskerAgentInput) :
    Except String JVal × List Event :=
  if strFieldMissing (payload.map (·.task)) then
    (.error "task is required", [])
  else if todosMissing (payload.map (·.todos)) then
    (.error "todos must be a non-empty list of steps", [])
  else
    let task := (payload.bind (·.task)).getD ""
    let res := (withSession aEnv.platform { record_replay := false }
      (fun _ => aEnv.agentOutcome)).1
    let tr := (withSession aEnv.platform { record_replay := false }
      (fun _ => aEnv.agentOutcome)).2
    match res with
    | .ok (success, _) =>
        (.ok (.jobj [("success", .jbool success),
          ("result", .jstr ("TaskerAgent completed. Task: " ++ task
            ++ ". Success: " ++ pyBool success))]), tr)
    | .error e => (.error e, tr)

end OagiCua

namespace Openagi

structure DefaultAgentInput where
  instruction : Option String := none
  model : Option String := none
  record_replay : Option Bool := none

structure TaskerAgentInput where
  task : Option String := none
  todos : Option (List String) := none
  record_replay : Option Bool := none

structure AgentEnv where
  platform : Env
  agentOutcome : Except String Bool

/-- `oagi_default_task` (openagi-computer-use/main.py, action
`openagi-default-task`): like the oagi-cua variant but `record_replay` comes
from the payload (default `False`) and the output adds `replay_url` read from
the session after the context block exits. -/
def oagi_default_task (aEnv : AgentEnv) (payload : Option DefaultAgentInput) :
    Except String JVal × List Event :=
  if strFieldMissing (payload.map (·.instruction)) then
    (.error "instruction is required", [])
  else
    let model := (payload.bind (·.model)).getD "lux-actor-1"
    let rr := (payload.bind (·.record_replay)).getD false
    let res := (withSession aEnv.platform { record_replay := rr }
      (fun _ => aEnv.agentOutcome)).1
    let tr := (withSession aEnv.platform { record_replay := rr }
      (fun _ => aEnv.agentOutcome)).2
    match res with
    | .ok (success, session) =>
        (.ok (.jobj [("success", .jbool success),
          ("result", .jstr ("Task completed with model " ++ model
            ++ ". Success: " ++ pyBool success)),
          ("replay_url", optStrToJ session.replay_view_url)]), tr)
    | .error e => (.error e, tr)

/-- `oagi_tasker_task` (openagi-computer-use/main.py, action
`openagi-tasker-task`): validation plus the replay-capable session wrapper
and the `replay_url` output field. -/
def oagi_tasker_task (aEnv : AgentEnv) (payload : Option TaskerAgentInput) :
    Except String JVal × List Event :=
  if strFieldMissing (payload.map (·.task)) then
    (.error "task is required", [])
  else if todosMissing (payload.map (·.todos)) then
    (.error "todos must be a non-empty list of steps", [])
  else
    let task := (payload.bind (·.task)).getD ""
    let rr := (payload.bind (·.record_replay)).getD false
    let res := (withSession aEnv.platform { record_replay := rr }
      (fun _ => aEnv.agentOutcome)).1
    let tr := (withSession aEnv.platform { record_replay := rr }
      (fun _ => aEnv.agentOutcome)).2
    match res with
    | .ok (success, session) =>
        (.ok (.jobj [("success", .jbool success),
          ("result", .jstr ("TaskerAgent completed. Task: " ++ task
            ++ ". Success: " ++ pyBool success)),
          ("replay_url", optStrToJ session.replay_view_url)]), tr)
    | .error e => (.error e, tr)

end Openagi

/-! ### Verification vocabulary and concrete environments -/

/-- Trace of `n` consecutive failed poll attempts: each list call is followed
by a 1-second sleep before the retry. -/
def failTrace (sid : String) : Nat → List Event
  | 0 => []
  | n + 1 => Event.replayList sid :: Event.sleep 1 :: failTrace sid n

def countCreate (tr : List Event) : Nat := tr.countP (fun e => e.isCreate)

def countDelete (tr : List Event) : Nat := tr.countP (fun e => e.isDelete)

/-- `true` when the trace contains no replay start/stop/list/download call. -/
def noReplayCallsB (tr : List Event) : Bool := tr.all (fun e => !e.isReplayCall)

/-- Every replay call in the event uses the replay id handed out by the
platform's replay-start and the session id of the created session. -/
def replayArgsOkB (env : Env) : Event → Bool
  | .replayStart sid => sid == env.sessionId
  | .replayStop rid sid => rid == env.replayId && sid == env.sessionId
  | .replayList sid => sid == env.sessionId
  | .replayDownload rid sid => rid == env.replayId && sid == env.sessionId
  | _ => true

/-- Output record with exactly a boolean `success` and a string `result`. -/
def shapeSR : JVal → Bool
  | .jobj [(k1, .jbool _), (k2, .jstr _)] => k1 == "success" && k2 == "result"
  | _ => false

/-- Output record with exactly `success : bool`, `result : string`, and
`replay_url : string | null`. -/
def shapeSRR : JVal → Bool
  | .jobj [(k1, .jbool _), (k2, .jstr _), (k3, .jstr _)] =>
      k1 == "success" && k2 == "result" && k3 == "replay_url"
  | .jobj [(k1, .jbool _), (k2, .jstr _), (k3, .jnull)] =>
      k1 == "success" && k2 == "result" && k3 == "replay_url"
  | _ => false

/-- A successful result's value satisfies the shape predicate (errors are
not result records). -/
def okShapeB (r : Except String JVal) (p : JVal → Bool) : Bool :=
  match r with
  | .ok v => p v
  | .error _ => true

def hasKey (k : String) : JVal → Bool
  | .jobj fields => fields.any (fun f => f.1 == k)
  | _ => false

/-- A platform whose replay-list endpoint raises on every poll attempt. -/
def envNeverReady : Env :=
  { sessionId := "sess-1"
    liveViewUrl := "http://live-1"
    replayId := "rep-1"
    listAt := fun _ => .error ()
    downloadOk := true }

/-- A platform whose replay is ready from the first poll attempt. -/
def envReadyAt0 : Env :=
  { sessionId := "sess-1"
    liveViewUrl := "http://live-1"
    replayId := "rep-1"
    listAt := fun _ => .ok [{ replay_id := "rep-1", replay_view_url := "http://replay-1" }]
    downloadOk := true }

/-- A concrete `bu-task` environment whose agent run finds an answer. -/
def buEnvEx : PythonBu.BuEnv :=
  { sessionId := "sess-bu"
    remoteUrl := "http://bu"
    agentOutcome := .ok { final_result := some "answer", errors := "" } }

def captchaEnvEx : CaptchaSolver.CaptchaEnv :=
  { sessionId := "sess-c", liveViewUrl := "http://c", navOutcome := .ok () }

def cuaEnvEx : OpenaiCua.CuaEnv :=
  { sessionId := "sess-cua", liveViewUrl := "http://cua", agentOutcome := .ok "done" }

def oagiEnvEx : OagiCua.AgentEnv :=
  { platform := envNeverReady, agentOutcome := .ok true }

def openagiEnvEx : Openagi.AgentEnv :=
  { platform := envNeverReady, agentOutcome := .ok true }

/-! ### Helper lemmas about the lifecycle wrapper -/

theorem aenter_events (env : Env) (s : KernelBrowserSession) :
    (aenter env s).2 = if s.record_replay then
      [Event.createSession env.sessionId, Event.replayStart env.sessionId]
    else [Event.createSession env.sessionId] := by
  cases h : s.record_replay <;> simp [aenter, startReplay, h]

theorem aenter_session_id (env : Env) (s : KernelBrowserSession) :
    (aenter env s).1.session_id = some env.sessionId := by
  cases h : s.record_replay <;> simp [aenter, startReplay, h]

theorem aenter_kernelClient (env : Env) (s : KernelBrowserSession) :
    (aenter env s).1.kernelClient = some ⟨⟩ := by
  cases h : s.record_replay <;> simp [aenter, startReplay, h]

theorem aenter_record_replay (env : Env) (s : KernelBrowserSession) :
    (aenter env s).1.record_replay = s.record_replay := by
  cases h : s.record_replay <;> simp [aenter, startReplay, h]

theorem aenter_live_view_url (env : Env) (s : KernelBrowserSession) :
    (aenter env s).1.live_view_url = some env.liveViewUrl := by
  cases h : s.record_replay <;> simp [aenter, startReplay, h]

theorem aenter_replay_id (env : Env) (s : KernelBrowserSession) :
    (aenter env s).1.replay_id =
      if s.record_replay then some env.replayId else s.replay_id := by
  cases h : s.record_replay <;> simp [aenter, startReplay, h]

theorem pollLoop_mem (env : Env) (rid sid : String) (fuel k : Nat) :
    ∀ e ∈ (pollLoop env rid sid k fuel).2,
      e = Event.replayList sid ∨ e = Event.sleep 1 := by
  induction fuel generalizing k with
  | zero => intro e he; simp [pollLoop] at he
  | succ n ih =>
    intro e he
    simp only [pollLoop] at he
    cases hA : attemptReady env rid k with
    | some r =>
        rw [hA] at he
        simp at he
        subst he
        exact Or.inl rfl
    | none =>
        rw [hA] at he
        simp only [List.mem_cons] at he
        rcases he with rfl | rfl | hm
        · exact Or.inl rfl
        · exact Or.inr rfl
        · exact ih (k + 1) e hm

theorem pollLoop_all_fail (env : Env) (rid sid : String) (fuel k : Nat)
    (h : ∀ i, i < fuel → attemptReady env rid (k + i) = none) :
    pollLoop env rid sid k fuel = (none, failTrace sid fuel) := by
  induction fuel generalizing k with
  | zero => simp [pollLoop, failTrace]
  | succ n ih =>
    have h0 : attemptReady env rid k = none := by simpa using h 0 (Nat.succ_pos n)
    have hrest : ∀ i, i < n → attemptReady env rid (k + 1 + i) = none := by
      intro i hi
      have e1 : k + 1 + i = k + (i + 1) := by omega
      rw [e1]
      exact h (i + 1) (by omega)
    simp only [pollLoop, h0]
    rw [ih (k + 1) hrest]
    simp [failTrace]

theorem pollLoop_first_success (env : Env) (rid sid : String) (r : ReplayInfo)
    (j : Nat) :
    ∀ fuel k, j < fuel →
    (∀ i, i < j → attemptReady env rid (k + i) = none) →
    attemptReady env rid (k + j) = some r →
    pollLoop env rid sid k fuel
      = (some r.replay_view_url, failTrace sid j ++ [Event.replayList sid]) := by
  induction j with
  | zero =>
    intro fuel k hj hfail hsucc
    cases fuel with
    | zero => omega
    | succ n =>
      have h0 : attemptReady env rid k = some r := by simpa using hsucc
      simp [pollLoop, h0, failTrace]
  | succ m ih =>
    intro fuel k hj hfail hsucc
    cases fuel with
    | zero => omega
    | succ n =>
      have h0 : attemptReady env rid k = none := by
        simpa using hfail 0 (by omega)
      have hr : pollLoop env rid sid (k + 1) n
          = (some r.replay_view_url, failTrace sid m ++ [Event.replayList sid]) := by
        apply ih n (k + 1) (by omega)
        · intro i hi
          have e1 : k + 1 + i = k + (i + 1) := by omega
          rw [e1]
          exact hfail (i + 1) (by omega)
        · have e1 : k + 1 + m = k + (m + 1) := by omega
          rw [e1]
          exact hsucc
      simp only [pollLoop, h0]
      rw [hr]
      simp [failTrace]

theorem failTrace_mem (sid : String) (n : Nat) :
    ∀ e ∈ failTrace sid n, e = Event.replayList sid ∨ e = Event.sleep 1 := by
  induction n with
  | zero => intro e he; simp [failTrace] at he
  | succ m ih =>
    intro e he
    simp only [failTrace, List.mem_cons] at he
    rcases he with rfl | rfl | hm
    · exact Or.inl rfl
    · exact Or.inr rfl
    · exact ih e hm

theorem sd_mem (env : Env) (s : KernelBrowserSession) :
    ∀ e ∈ (stopAndDownloadReplay env s).2,
      (∃ rid sid, s.replay_id = some rid ∧ s.session_id = some sid ∧
        (e = Event.replayStop rid sid ∨ e = Event.replayList sid
          ∨ e = Event.replayDownload rid sid))
      ∨ e = Event.sleep 2 ∨ e = Event.sleep 1
      ∨ e = Event.warn "Replay may still be processing"
      ∨ e = Event.warn "Error downloading replay"
      ∨ e = Event.writeFile s.replay_output_path := by
  intro e he
  rcases hk : s.kernelClient with _ | c
  · simp [stopAndDownloadReplay, hk] at he
  rcases hs : s.session_id with _ | sid
  · simp [stopAndDownloadReplay, hk, hs] at he
  rcases hr : s.replay_id with _ | rid
  · simp [stopAndDownloadReplay, hk, hs, hr] at he
  simp only [stopAndDownloadReplay, hk, hs, hr] at he
  simp only [List.mem_cons, List.mem_append] at he
  rcases he with rfl | rfl | (hpoll | hwarn) | hdl
  · exact Or.inl ⟨rid, sid, rfl, rfl, Or.inl rfl⟩
  · exact Or.inr (Or.inl rfl)
  · rcases pollLoop_mem env rid sid maxWait 0 e hpoll with rfl | rfl
    · exact Or.inl ⟨rid, sid, rfl, rfl, Or.inr (Or.inl rfl)⟩
    · exact Or.inr (Or.inr (Or.inl rfl))
  · rcases hp : (pollLoop env rid sid 0 maxWait).1 with _ | url <;>
      rw [hp] at hwarn <;> simp at hwarn
    subst hwarn
    exact Or.inr (Or.inr (Or.inr (Or.inl rfl)))
  · cases hd : env.downloadOk <;> rw [hd] at hdl <;> simp at hdl <;>
      rcases hdl with rfl | rfl
    · exact Or.inl ⟨rid, sid, rfl, rfl, Or.inr (Or.inr rfl)⟩
    · exact Or.inr (Or.inr (Or.inr (Or.inr (Or.inl rfl))))
    · exact Or.inl ⟨rid, sid, rfl, rfl, Or.inr (Or.inr rfl)⟩
    · exact Or.inr (Or.inr (Or.inr (Or.inr (Or.inr rfl))))

theorem sd_state (env : Env) (s : KernelBrowserSession) :
    (stopAndDownloadReplay env s).1 = s
    ∨ ∃ rid sid url, s.replay_id = some rid ∧ s.session_id = some sid
        ∧ (pollLoop env rid sid 0 maxWait).1 = some url
        ∧ (stopAndDownloadReplay env s).1 = { s with replay_view_url := some url } := by
  rcases hk : s.kernelClient with _ | c
  · left; simp [stopAndDownloadReplay, hk]
  rcases hs : s.session_id with _ | sid
  · left; simp [stopAndDownloadReplay, hk, hs]
  rcases hr : s.replay_id with _ | rid
  · left; simp [stopAndDownloadReplay, hk, hs, hr]
  rcases hp : (pollLoop env rid sid 0 maxWait).1 with _ | url
  · left; simp [stopAndDownloadReplay, hk, hs, hr, hp]
  · right
    exact ⟨rid, sid, url, rfl, rfl, hp, by simp [stopAndDownloadReplay, hk, hs, hr, hp]⟩

theorem sd_never_ready (env : Env) (s : KernelBrowserSession) (c : Kernel)
    (sid rid : String)
    (hk : s.kernelClient = some c) (hs : s.session_id = some sid)
    (hr : s.replay_id = some rid)
    (hnever : ∀ i, i < maxWait → attemptReady env rid i = none) :
    (stopAndDownloadReplay env s).1 = s ∧
    (stopAndDownloadReplay env s).2 =
      Event.replayStop rid sid :: Event.sleep 2 ::
        (failTrace sid maxWait ++ [Event.warn "Replay may still be processing"]
          ++ (if env.downloadOk then
                [Event.replayDownload rid sid, Event.writeFile s.replay_output_path]
              else
                [Event.replayDownload rid sid, Event.warn "Error downloading replay"])) := by
  have hp := pollLoop_all_fail env rid sid maxWait 0 (by simpa using hnever)
  constructor
  · simp [stopAndDownloadReplay, hk, hs, hr, hp]
  · simp [stopAndDownloadReplay, hk, hs, hr, hp]

theorem sd_no_create_delete (env : Env) (s : KernelBrowserSession) :
    ∀ e ∈ (stopAndDownloadReplay env s).2, e.isCreate = false ∧ e.isDelete = false := by
  intro e he
  rcases sd_mem env s e he with ⟨rid, sid, _, _, (rfl | rfl | rfl)⟩ | rfl | rfl | rfl | rfl | rfl <;>
    exact ⟨rfl, rfl⟩

theorem aexitCore_inactive (env : Env) (s : KernelBrowserSession)
    (h : s.kernelClient = none ∨ s.session_id = none) :
    aexitCore env s = (s, []) := by
  rcases h with h | h
  · simp [aexitCore, h]
  · rcases hk : s.kernelClient with _ | c <;> simp [aexitCore, h, hk]

theorem aexitCore_skip (env : Env) (s : KernelBrowserSession) (c : Kernel)
    (sid : String) (hk : s.kernelClient = some c) (hs : s.session_id = some sid)
    (hrr : (s.record_replay && s.replay_id.isSome) = false) :
    aexitCore env s = (s, [Event.deleteSession sid]) := by
  simp [aexitCore, hk, hs, hrr]

theorem aexitCore_active (env : Env) (s : KernelBrowserSession) (c : Kernel)
    (sid : String) (hk : s.kernelClient = some c) (hs : s.session_id = some sid)
    (hrr : (s.record_replay && s.replay_id.isSome) = true) :
    aexitCore env s = ((stopAndDownloadReplay env s).1,
      ((if s.replay_grace_period > 0 then [Event.sleep s.replay_grace_period]
        else ([] : List Event)) ++ (stopAndDownloadReplay env s).2)
      ++ [Event.deleteSession sid]) := by
  simp [aexitCore, hk, hs, hrr]

theorem aexit_events_split (env : Env) (s : KernelBrowserSession) (c : Kernel)
    (sid : String) (hk : s.kernelClient = some c) (hs : s.session_id = some sid) :
    ∃ pre, (aexit env s).2 = pre ++ [Event.deleteSession sid]
      ∧ ∀ e ∈ pre, e.isCreate = false ∧ e.isDelete = false := by
  unfold aexit
  cases hrr : (s.record_replay && s.replay_id.isSome) with
  | false =>
      rw [aexitCore_skip env s c sid hk hs hrr]
      exact ⟨[], rfl, by intro e he; simp at he⟩
  | true =>
      rw [aexitCore_active env s c sid hk hs hrr]
      refine ⟨(if s.replay_grace_period > 0 then [Event.sleep s.replay_grace_period]
        else ([] : List Event)) ++ (stopAndDownloadReplay env s).2, rfl, ?_⟩
      intro e he
      rcases List.mem_append.mp he with hg | hsd
      · split at hg <;> simp at hg
        subst hg
        exact ⟨rfl, rfl⟩
      · exact sd_no_create_delete env s e hsd

theorem withSession_trace {α : Type} (env : Env) (cfg : KernelBrowserSession)
    (body : KernelBrowserSession → Except String α) :
    (withSession env cfg body).2
      = (aenter env cfg).2 ++ (aexit env (aenter env cfg).1).2 := by
  cases h : body (aenter env cfg).1 <;> simp [withSession, h]

theorem withSession_error {α : Type} (env : Env) (cfg : KernelBrowserSession)
    (msg : String) :
    (withSession env cfg (fun _ => (Except.error msg : Except String α))).1
      = Except.error msg := by
  simp [withSession]

theorem withSession_ok {α : Type} (env : Env) (cfg : KernelBrowserSession) (a : α) :
    (withSession env cfg (fun _ => (Except.ok a : Except String α))).1
      = Except.ok (a, (aexit env (aenter env cfg).1).1) := by
  simp [withSession]

theorem withSession_create_delete {α : Type} (env : Env) (cfg : KernelBrowserSession)
    (body : KernelBrowserSession → Except String α) :
    countCreate (withSession env cfg body).2 = 1
    ∧ countDelete (withSession env cfg body).2 = 1
    ∧ (withSession env cfg body).2.getLast?
        = some (Event.deleteSession env.sessionId) := by
  rw [withSession_trace]
  obtain ⟨pre, hpre, hmem⟩ := aexit_events_split env (aenter env cfg).1 ⟨⟩
    env.sessionId (aenter_kernelClient env cfg) (aenter_session_id env cfg)
  rw [hpre]
  have hpre_c : pre.countP (fun e => e.isCreate) = 0 :=
    List.countP_eq_zero.mpr (fun e he => by simp [(hmem e he).1])
  have hpre_d : pre.countP (fun e => e.isDelete) = 0 :=
    List.countP_eq_zero.mpr (fun e he => by simp [(hmem e he).2])
  have henter_c : countCreate (aenter env cfg).2 = 1 := by
    rw [aenter_events]
    cases h : cfg.record_replay <;>
      simp [countCreate, List.countP_cons, Event.isCreate]
  have henter_d : countDelete (aenter env cfg).2 = 0 := by
    rw [aenter_events]
    cases h : cfg.record_replay <;>
      simp [countDelete, List.countP_cons, Event.isDelete]
  refine ⟨?_, ?_, ?_⟩
  · rw [countCreate, List.countP_append, List.countP_append]
    have : countCreate (aenter env cfg).2 = (aenter env cfg).2.countP (fun e => e.isCreate) := rfl
    rw [← this, henter_c, hpre_c]
    simp [Event.isCreate]
  · rw [countDelete, List.countP_append, List.countP_append]
    have : countDelete (aenter env cfg).2 = (aenter env cfg).2.countP (fun e => e.isDelete) := rfl
    rw [← this, henter_d, hpre_d]
    simp [Event.isDelete]
  · rw [← List.append_assoc, List.getLast?_append_cons]
    rfl

theorem withSession_no_replay {α : Type} (env : Env) (cfg : KernelBrowserSession)
    (body : KernelBrowserSession → Except String α)
    (h : cfg.record_replay = false) :
    (withSession env cfg body).2
      = [Event.createSession env.sessionId, Event.deleteSession env.sessionId] := by
  rw [withSession_trace, aenter_events, h]
  have hrr : ((aenter env cfg).1.record_replay
      && (aenter env cfg).1.replay_id.isSome) = false := by
    rw [aenter_record_replay, h]
    rfl
  show _ ++ (aexitCore env (aenter env cfg).1).2 = _
  rw [aexitCore_skip env (aenter env cfg).1 ⟨⟩ env.sessionId
    (aenter_kernelClient env cfg) (aenter_session_id env cfg) hrr]
  simp

theorem aexit_never_ready (env : Env) (s : KernelBrowserSession) (c : Kernel)
    (sid rid : String)
    (hk : s.kernelClient = some c) (hs : s.session_id = some sid)
    (hr : s.replay_id = some rid) (hrec : s.record_replay = true)
    (hnever : ∀ i, i < maxWait → attemptReady env rid i = none) :
    (aexit env s).2 =
      ((if s.replay_grace_period > 0 then [Event.sleep s.replay_grace_period]
        else ([] : List Event))
        ++ (Event.replayStop rid sid :: Event.sleep 2 ::
            (failTrace sid maxWait ++ [Event.warn "Replay may still be processing"]
              ++ (if env.downloadOk then
                    [Event.replayDownload rid sid, Event.writeFile s.replay_output_path]
                  else
                    [Event.replayDownload rid sid, Event.warn "Error downloading replay"]))))
      ++ [Event.deleteSession sid] := by
  have hrr : (s.record_replay && s.replay_id.isSome) = true := by
    rw [hrec, hr]
    rfl
  show (aexitCore env s).2 = _
  rw [aexitCore_active env s c sid hk hs hrr]
  rw [(sd_never_ready env s c sid rid hk hs hr hnever).2]

theorem aexit_args_ok (env : Env) (s : KernelBrowserSession)
    (hs : s.session_id = some env.sessionId)
    (hrep : s.replay_id = some env.replayId
      ∨ (s.record_replay && s.replay_id.isSome) = false) :
    (aexit env s).2.all (replayArgsOkB env) = true := by
  show (aexitCore env s).2.all _ = true
  rcases hk : s.kernelClient with _ | c
  · rw [aexitCore_inactive env s (Or.inl hk)]
    rfl
  · cases hrr : (s.record_replay && s.replay_id.isSome) with
    | false =>
        rw [aexitCore_skip env s c env.sessionId hk hs hrr]
        rfl
    | true =>
        have hr : s.replay_id = some env.replayId := by
          rcases hrep with h | h
          · exact h
          · rw [h] at hrr; cases hrr
        rw [aexitCore_active env s c env.sessionId hk hs hrr]
        rw [List.all_append, List.all_append]
        have hgrace : (if s.replay_grace_period > 0 then
            [Event.sleep s.replay_grace_period] else ([] : List Event)).all
              (replayArgsOkB env) = true := by
          split <;> rfl
        have hsd : (stopAndDownloadReplay env s).2.all (replayArgsOkB env) = true := by
          rw [List.all_eq_true]
          intro e he
          rcases sd_mem env s e he with
            ⟨rid, sid, hr', hs', (rfl | rfl | rfl)⟩ | rfl | rfl | rfl | rfl | rfl
          · rw [hr] at hr'
            rw [hs] at hs'
            cases hr'
            cases hs'
            simp [replayArgsOkB]
          · rw [hs] at hs'
            cases hs'
            simp [replayArgsOkB]
          · rw [hr] at hr'
            rw [hs] at hs'
            cases hr'
            cases hs'
            simp [replayArgsOkB]
          · rfl
          · rfl
          · rfl
          · rfl
          · rfl
        simp [hgrace, hsd, replayArgsOkB]

theorem aexitCore_fst_cases (env : Env) (s : KernelBrowserSession) :
    (aexitCore env s).1 = s ∨ (aexitCore env s).1 = (stopAndDownloadReplay env s).1 := by
  rcases hk : s.kernelClient with _ | c
  · left
    rw [aexitCore_inactive env s (Or.inl hk)]
  rcases hs : s.session_id with _ | sid
  · left
    rw [aexitCore_inactive env s (Or.inr hs)]
  cases hrr : (s.record_replay && s.replay_id.isSome) with
  | false =>
      left
      rw [aexitCore_skip env s c sid hk hs hrr]
  | true =>
      right
      rw [aexitCore_active env s c sid hk hs hrr]

/-! ### Per-action lemmas -/

theorem captcha_trace (cEnv : CaptchaSolver.CaptchaEnv) :
    (CaptchaSolver.test_captcha_solver cEnv).2
      = [Event.createSession cEnv.sessionId, Event.deleteSession cEnv.sessionId] := by
  cases h : cEnv.navOutcome <;> simp [CaptchaSolver.test_captcha_solver, h]

theorem cua_invalid (cuaEnv : OpenaiCua.CuaEnv) (p : Option OpenaiCua.CuaInput)
    (hv : strFieldMissing (p.map (·.task)) = true) :
    OpenaiCua.cua_task cuaEnv p = (.error "task is required", []) := by
  simp [OpenaiCua.cua_task, hv]

theorem cua_valid_trace (cuaEnv : OpenaiCua.CuaEnv) (p : Option OpenaiCua.CuaInput)
    (hv : strFieldMissing (p.map (·.task)) = false) :
    (OpenaiCua.cua_task cuaEnv p).2
      = [Event.createSession cuaEnv.sessionId, Event.deleteSession cuaEnv.sessionId] := by
  cases h : cuaEnv.agentOutcome <;> simp [OpenaiCua.cua_task, hv, h]

theorem oagi_default_invalid (aEnv : OagiCua.AgentEnv)
    (p : Option OagiCua.DefaultAgentInput)
    (hv : strFieldMissing (p.map (·.instruction)) = true) :
    OagiCua.oagi_default_task aEnv p = (.error "instruction is required", []) := by
  simp [OagiCua.oagi_default_task, hv]

theorem oagi_default_valid_trace (aEnv : OagiCua.AgentEnv)
    (p : Option OagiCua.DefaultAgentInput)
    (hv : strFieldMissing (p.map (·.instruction)) = false) :
    (OagiCua.oagi_default_task aEnv p).2
      = (withSession aEnv.platform { record_replay := false }
          (fun _ => aEnv.agentOutcome)).2 := by
  cases hr : (withSession aEnv.platform { record_replay := false }
      (fun _ => aEnv.agentOutcome)).1 with
  | ok v =>
      rcases v with ⟨b, s2⟩
      simp [OagiCua.oagi_default_task, hv, hr]
  | error e => simp [OagiCua.oagi_default_task, hv, hr]

theorem oagi_tasker_invalid_task (aEnv : OagiCua.AgentEnv)
    (p : Option OagiCua.TaskerAgentInput)
    (hv : strFieldMissing (p.map (·.task)) = true) :
    OagiCua.oagi_tasker_task aEnv p = (.error "task is required", []) := by
  simp [OagiCua.oagi_tasker_task, hv]

theorem oagi_tasker_invalid_todos (aEnv : OagiCua.AgentEnv)
    (p : Option OagiCua.TaskerAgentInput)
    (hv : strFieldMissing (p.map (·.task)) = false)
    (ht : todosMissing (p.map (·.todos)) = true) :
    OagiCua.oagi_tasker_task aEnv p
      = (.error "todos must be a non-empty list of steps", []) := by
  simp [OagiCua.oagi_tasker_task, hv, ht]

theorem oagi_tasker_valid_trace (aEnv : OagiCua.AgentEnv)
    (p : Option OagiCua.TaskerAgentInput)
    (hv : strFieldMissing (p.map (·.task)) = false)
    (ht : todosMissing (p.map (·.todos)) = false) :
    (OagiCua.oagi_tasker_task aEnv p).2
      = (withSession aEnv.platform { record_replay := false }
          (fun _ => aEnv.agentOutcome)).2 := by
  cases hr : (withSession aEnv.platform { record_replay := false }
      (fun _ => aEnv.agentOutcome)).1 with
  | ok v =>
      rcases v with ⟨b, s2⟩
      simp [OagiCua.oagi_tasker_task, hv, ht, hr]
  | error e => simp [OagiCua.oagi_tasker_task, hv, ht, hr]

theorem openagi_default_invalid (bEnv : Openagi.AgentEnv)
    (p : Option Openagi.DefaultAgentInput)
    (hv : strFieldMissing (p.map (·.instruction)) = true) :
    Openagi.oagi_default_task bEnv p = (.error "instruction is required", []) := by
  simp [Openagi.oagi_default_task, hv]

theorem openagi_default_valid_trace (bEnv : Openagi.AgentEnv)
    (p : Option Openagi.DefaultAgentInput)
    (hv : strFieldMissing (p.map (·.instruction)) = false) :
    (Openagi.oagi_default_task bEnv p).2
      = (withSession bEnv.platform
          { record_replay := (p.bind (·.record_replay)).getD false }
          (fun _ => bEnv.agentOutcome)).2 := by
  cases hr : (withSession bEnv.platform
      { record_replay := (p.bind (·.record_replay)).getD false }
      (fun _ => bEnv.agentOutcome)).1 with
  | ok v =>
      rcases v with ⟨b, s2⟩
      simp [Openagi.oagi_default_task, hv, hr]
  | error e => simp [Openagi.oagi_default_task, hv, hr]

theorem openagi_tasker_invalid_task (bEnv : Openagi.AgentEnv)
    (p : Option Openagi.TaskerAgentInput)
    (hv : strFieldMissing (p.map (·.task)) = true) :
    Openagi.oagi_tasker_task bEnv p = (.error "task is required", []) := by
  simp [Openagi.oagi_tasker_task, hv]

theorem openagi_tasker_invalid_todos (bEnv : Openagi.AgentEnv)
    (p : Option Openagi.TaskerAgentInput)
    (hv : strFieldMissing (p.map (·.task)) = false)
    (ht : todosMissing (p.map (·.todos)) = true) :
    Openagi.oagi_tasker_task bEnv p
      = (.error "todos must be a non-empty list of steps", []) := by
  simp [Openagi.oagi_tasker_task, hv, ht]

theorem openagi_tasker_valid_trace (bEnv : Openagi.AgentEnv)
    (p : Option Openagi.TaskerAgentInput)
    (hv : strFieldMissing (p.map (·.task)) = false)
    (ht : todosMissing (p.map (·.todos)) = false) :
    (Openagi.oagi_tasker_task bEnv p).2
      = (withSession bEnv.platform
          { record_replay := (p.bind (·.record_replay)).getD false }
          (fun _ => bEnv.agentOutcome)).2 := by
  cases hr : (withSession bEnv.platform
      { record_replay := (p.bind (·.record_replay)).getD false }
      (fun _ => bEnv.agentOutcome)).1 with
  | ok v =>
      rcases v with ⟨b, s2⟩
      simp [Openagi.oagi_tasker_task, hv, ht, hr]
  | error e => simp [Openagi.oagi_tasker_task, hv, ht, hr]

/-! ### Claim theorems -/

/-- C1: whenever the wrapped task raises, the lifecycle wrapper's teardown
still runs, the exception propagates, the remote session is deleted exactly
once, and that deletion is the very last event of the wrapper's trace —
after all recording work. -/
theorem C1_teardown_on_task_failure (α : Type) (env : Env)
    (cfg : KernelBrowserSession) (msg : String) :
    (withSession env cfg (fun _ => (Except.error msg : Except String α))).1
      = Except.error msg
    ∧ countDelete (withSession env cfg
        (fun _ => (Except.error msg : Except String α))).2 = 1
    ∧ (withSession env cfg (fun _ => (Except.error msg : Except String α))).2.getLast?
        = some (Event.deleteSession env.sessionId) := by
  exact ⟨withSession_error env cfg msg,
    (withSession_create_delete env cfg _).2.1,
    (withSession_create_delete env cfg _).2.2⟩

/-- C5: with `record_replay = False`, no replay start, stop, list, or
download call occurs anywhere between entry and exit. -/
theorem C5_no_replay_calls_when_disabled (α : Type) (env : Env)
    (cfg : KernelBrowserSession) (body : KernelBrowserSession → Except String α)
    (h : cfg.record_replay = false) :
    noReplayCallsB (withSession env cfg body).2 = true := by
  rw [noReplayCallsB, withSession_no_replay env cfg body h]
  rfl

/-- Witness for C5 at a concrete environment and configuration. -/
theorem C5_no_replay_calls_when_disabled_witness :
    noReplayCallsB (withSession envReadyAt0 { record_replay := false }
      (fun _ => (Except.ok true : Except String Bool))).2 = true :=
  C5_no_replay_calls_when_disabled Bool envReadyAt0 { record_replay := false }
    (fun _ => Except.ok true) rfl

/-- C8 (amended): after `__aexit__`, `session_id`, `replay_id` and the
client field are `None`; `replay_view_url` keeps either its prior value or
the value the readiness poll assigned; and `live_view_url` also survives
unchanged (contrary to the original claim that no other session state
survives). -/
theorem C8_aexit_fields (env : Env) (s : KernelBrowserSession) :
    (aexit env s).1.session_id = none
    ∧ (aexit env s).1.replay_id = none
    ∧ (aexit env s).1.kernelClient = none
    ∧ (aexit env s).1.live_view_url = s.live_view_url
    ∧ ((aexit env s).1.replay_view_url = s.replay_view_url
       ∨ ∃ rid sid url, s.replay_id = some rid ∧ s.session_id = some sid
          ∧ (pollLoop env rid sid 0 maxWait).1 = some url
          ∧ (aexit env s).1.replay_view_url = some url) := by
  refine ⟨rfl, rfl, rfl, ?_, ?_⟩
  · show (aexitCore env s).1.live_view_url = s.live_view_url
    rcases aexitCore_fst_cases env s with h | h
    · rw [h]
    · rw [h]
      rcases sd_state env s with h2 | ⟨rid, sid, url, _, _, _, h2⟩
      · rw [h2]
      · rw [h2]
  · rcases aexitCore_fst_cases env s with h | h
    · left
      show (aexitCore env s).1.replay_view_url = s.replay_view_url
      rw [h]
    · rcases sd_state env s with h2 | ⟨rid, sid, url, hr, hs, hp, h2⟩
      · left
        show (aexitCore env s).1.replay_view_url = s.replay_view_url
        rw [h, h2]
      · right
        refine ⟨rid, sid, url, hr, hs, hp, ?_⟩
        show (aexitCore env s).1.replay_view_url = some url
        rw [h, h2]

/-- C8 counterexample: after a full enter/exit cycle, `live_view_url` is
still populated, so session state other than `replay_view_url` does survive
`__aexit__`. -/
theorem C8_live_view_url_survives_cex :
    (aexit envReadyAt0
        (aenter envReadyAt0 ({ record_replay := false } : KernelBrowserSession)).1).1.live_view_url
      = some "http://live-1" := by
  rfl

/-- C10: the `kernel` property raises a `RuntimeError` exactly when the
internal client is `None`, and otherwise returns the client unchanged. -/
theorem C10_kernel_property (s : KernelBrowserSession) :
    ((∃ msg, s.kernel = Except.error msg) ↔ s.kernelClient = none)
    ∧ (∀ c, s.kernelClient = some c → s.kernel = Except.ok c)
    ∧ (s.kernelClient = none →
        s.kernel = Except.error "Session not initialized. Use async with context.") := by
  rcases h : s.kernelClient with _ | c
  · refine ⟨⟨fun _ => rfl,
      fun _ => ⟨"Session not initialized. Use async with context.",
        by simp [KernelBrowserSession.kernel, h]⟩⟩, ?_, ?_⟩
    · intro c hc
      cases hc
    · intro _
      simp [KernelBrowserSession.kernel, h]
  · refine ⟨⟨?_, ?_⟩, ?_, ?_⟩
    · rintro ⟨msg, hm⟩
      simp [KernelBrowserSession.kernel, h] at hm
    · intro hc
      cases hc
    · intro c' hc
      cases hc
      simp [KernelBrowserSession.kernel, h]
    · intro hc
      cases hc

/-- C2 counterexample: the python-bu `bu-task` action creates a session and
never deletes it, so even on a normal exit the create/delete calls are not
balanced one-to-one. -/
theorem C2_bu_task_leaks_session_cex :
    (PythonBu.bu_task buEnvEx { task := some "buy milk" }).2
      = [Event.createSession "sess-bu"]
    ∧ countCreate (PythonBu.bu_task buEnvEx { task := some "buy milk" }).2 = 1
    ∧ countDelete (PythonBu.bu_task buEnvEx { task := some "buy milk" }).2 = 0 :=
  ⟨rfl, rfl, rfl⟩

/-- C2 (amended): for every action except python-bu's `bu-task`, the
session-create and session-delete calls are balanced one-to-one on both
normal and exceptional exit; `bu-task` never deletes its session. -/
theorem C2_amended_create_delete_balanced
    (cEnv : CaptchaSolver.CaptchaEnv) (cuaEnv : OpenaiCua.CuaEnv)
    (p1 : Option OpenaiCua.CuaInput)
    (aEnv : OagiCua.AgentEnv) (p2 : Option OagiCua.DefaultAgentInput)
    (p3 : Option OagiCua.TaskerAgentInput)
    (bEnv : Openagi.AgentEnv) (p4 : Option Openagi.DefaultAgentInput)
    (p5 : Option Openagi.TaskerAgentInput) :
    countCreate (CaptchaSolver.test_captcha_solver cEnv).2
      = countDelete (CaptchaSolver.test_captcha_solver cEnv).2
    ∧ countCreate (OpenaiCua.cua_task cuaEnv p1).2
      = countDelete (OpenaiCua.cua_task cuaEnv p1).2
    ∧ countCreate (OagiCua.oagi_default_task aEnv p2).2
      = countDelete (OagiCua.oagi_default_task aEnv p2).2
    ∧ countCreate (OagiCua.oagi_tasker_task aEnv p3).2
      = countDelete (OagiCua.oagi_tasker_task aEnv p3).2
    ∧ countCreate (Openagi.oagi_default_task bEnv p4).2
      = countDelete (Openagi.oagi_default_task bEnv p4).2
    ∧ countCreate (Openagi.oagi_tasker_task bEnv p5).2
      = countDelete (Openagi.oagi_tasker_task bEnv p5).2 := by
  refine ⟨?_, ?_, ?_, ?_, ?_, ?_⟩
  · rw [captcha_trace cEnv]
    rfl
  · cases hv : strFieldMissing (p1.map (·.task)) with
    | true => rw [cua_invalid cuaEnv p1 hv]; rfl
    | false => rw [cua_valid_trace cuaEnv p1 hv]; rfl
  · cases hv : strFieldMissing (p2.map (·.instruction)) with
    | true => rw [oagi_default_invalid aEnv p2 hv]; rfl
    | false =>
        rw [oagi_default_valid_trace aEnv p2 hv]
        have h := withSession_create_delete aEnv.platform { record_replay := false }
          (fun _ => aEnv.agentOutcome)
        exact h.1.trans h.2.1.symm
  · cases hv : strFieldMissing (p3.map (·.task)) with
    | true => rw [oagi_tasker_invalid_task aEnv p3 hv]; rfl
    | false =>
        cases ht : todosMissing (p3.map (·.todos)) with
        | true => rw [oagi_tasker_invalid_todos aEnv p3 hv ht]; rfl
        | false =>
            rw [oagi_tasker_valid_trace aEnv p3 hv ht]
            have h := withSession_create_delete aEnv.platform { record_replay := false }
              (fun _ => aEnv.agentOutcome)
            exact h.1.trans h.2.1.symm
  · cases hv : strFieldMissing (p4.map (·.instruction)) with
    | true => rw [openagi_default_invalid bEnv p4 hv]; rfl
    | false =>
        rw [openagi_default_valid_trace bEnv p4 hv]
        have h := withSession_create_delete bEnv.platform
          { record_replay := (p4.bind (·.record_replay)).getD false }
          (fun _ => bEnv.agentOutcome)
        exact h.1.trans h.2.1.symm
  · cases hv : strFieldMissing (p5.map (·.task)) with
    | true => rw [openagi_tasker_invalid_task bEnv p5 hv]; rfl
    | false =>
        cases ht : todosMissing (p5.map (·.todos)) with
        | true => rw [openagi_tasker_invalid_todos bEnv p5 hv ht]; rfl
        | false =>
            rw [openagi_tasker_valid_trace bEnv p5 hv ht]
            have h := withSession_create_delete bEnv.platform
              { record_replay := (p5.bind (·.record_replay)).getD false }
              (fun _ => bEnv.agentOutcome)
            exact h.1.trans h.2.1.symm

/-- C4 counterexample: invoking `bu-task` with an empty `task` raises no
validation error and a session-create call does occur. -/
theorem C4_bu_task_no_validation_cex :
    (PythonBu.bu_task buEnvEx { task := some "" }).1
      = Except.ok (JVal.jobj [("final_result", JVal.jstr "answer")])
    ∧ (PythonBu.bu_task buEnvEx { task := some "" }).2
      = [Event.createSession "sess-bu"] :=
  ⟨rfl, rfl⟩

/-- C4 (amended): every action that validates its input — `cua-task` and the
four oagi/openagi actions — raises a descriptive error on a missing or empty
`task`/`instruction` before any session-create call; `bu-task` performs no
such validation and creates a session regardless. -/
theorem C4_amended_validation
    (cuaEnv : OpenaiCua.CuaEnv) (p1 : Option OpenaiCua.CuaInput)
    (aEnv : OagiCua.AgentEnv) (p2 : Option OagiCua.DefaultAgentInput)
    (p3 : Option OagiCua.TaskerAgentInput)
    (bEnv : Openagi.AgentEnv) (p4 : Option Openagi.DefaultAgentInput)
    (p5 : Option Openagi.TaskerAgentInput) :
    (strFieldMissing (p1.map (·.task)) = true →
        OpenaiCua.cua_task cuaEnv p1 = (.error "task is required", []))
    ∧ (strFieldMissing (p2.map (·.instruction)) = true →
        OagiCua.oagi_default_task aEnv p2 = (.error "instruction is required", []))
    ∧ (strFieldMissing (p3.map (·.task)) = true →
        OagiCua.oagi_tasker_task aEnv p3 = (.error "task is required", []))
    ∧ (strFieldMissing (p4.map (·.instruction)) = true →
        Openagi.oagi_default_task bEnv p4 = (.error "instruction is required", []))
    ∧ (strFieldMissing (p5.map (·.task)) = true →
        Openagi.oagi_tasker_task bEnv p5 = (.error "task is required", [])) :=
  ⟨cua_invalid cuaEnv p1, oagi_default_invalid aEnv p2,
   oagi_tasker_invalid_task aEnv p3, openagi_default_invalid bEnv p4,
   openagi_tasker_invalid_task bEnv p5⟩

/-- Witness for C4 (amended): the five validating actions at a missing
payload. -/
theorem C4_amended_validation_witness :
    OpenaiCua.cua_task cuaEnvEx none = (.error "task is required", [])
    ∧ OagiCua.oagi_default_task oagiEnvEx none = (.error "instruction is required", [])
    ∧ OagiCua.oagi_tasker_task oagiEnvEx none = (.error "task is required", [])
    ∧ Openagi.oagi_default_task openagiEnvEx none = (.error "instruction is required", [])
    ∧ Openagi.oagi_tasker_task openagiEnvEx none = (.error "task is required", []) := by
  have h := C4_amended_validation cuaEnvEx none oagiEnvEx none none openagiEnvEx none none
  exact ⟨h.1 rfl, h.2.1 rfl, h.2.2.1 rfl, h.2.2.2.1 rfl, h.2.2.2.2 rfl⟩

/-- C6 counterexample: `bu-task` returns a record with a `final_result`
field only — no boolean `success` field and no string `result` field — so
not every action matches the declared `{success, result}` shape. -/
theorem C6_bu_task_shape_cex :
    (PythonBu.bu_task buEnvEx { task := some "list prices" }).1
      = Except.ok (JVal.jobj [("final_result", JVal.jstr "answer")])
    ∧ shapeSR (JVal.jobj [("final_result", JVal.jstr "answer")]) = false
    ∧ shapeSRR (JVal.jobj [("final_result", JVal.jstr "answer")]) = false
    ∧ hasKey "success" (JVal.jobj [("final_result", JVal.jstr "answer")]) = false :=
  ⟨rfl, rfl, rfl, rfl⟩

/-- C6 (amended): the four oagi/openagi computer-use actions return records
strictly matching their declared shapes — `{success: bool, result: string}`
for the oagi-cua pair and additionally `{replay_url: string|null}` for the
replay-capable openagi pair.  (`bu-task`, `cua-task`, and the captcha action
do not return that shape.) -/
theorem C6_amended_output_shapes
    (aEnv : OagiCua.AgentEnv) (p2 : Option OagiCua.DefaultAgentInput)
    (p3 : Option OagiCua.TaskerAgentInput)
    (bEnv : Openagi.AgentEnv) (p4 : Option Openagi.DefaultAgentInput)
    (p5 : Option Openagi.TaskerAgentInput) :
    okShapeB (OagiCua.oagi_default_task aEnv p2).1 shapeSR = true
    ∧ okShapeB (OagiCua.oagi_tasker_task aEnv p3).1 shapeSR = true
    ∧ okShapeB (Openagi.oagi_default_task bEnv p4).1 shapeSRR = true
    ∧ okShapeB (Openagi.oagi_tasker_task bEnv p5).1 shapeSRR = true := by
  refine ⟨?_, ?_, ?_, ?_⟩
  · cases hv : strFieldMissing (p2.map (·.instruction)) with
    | true => rw [oagi_default_invalid aEnv p2 hv]; rfl
    | false =>
        cases ha : aEnv.agentOutcome with
        | error e =>
            have hw : (withSession aEnv.platform { record_replay := false }
                (fun _ => aEnv.agentOutcome)).1 = Except.error e := by
              simp [withSession, ha]
            simp [OagiCua.oagi_default_task, hv, hw, okShapeB]
        | ok b =>
            have hw : (withSession aEnv.platform { record_replay := false }
                (fun _ => aEnv.agentOutcome)).1
                = Except.ok (b, (aexit aEnv.platform
                    (aenter aEnv.platform { record_replay := false }).1).1) := by
              simp [withSession, ha]
            simp [OagiCua.oagi_default_task, hv, hw, okShapeB, shapeSR]
  · cases hv : strFieldMissing (p3.map (·.task)) with
    | true => rw [oagi_tasker_invalid_task aEnv p3 hv]; rfl
    | false =>
        cases ht : todosMissing (p3.map (·.todos)) with
        | true => rw [oagi_tasker_invalid_todos aEnv p3 hv ht]; rfl
        | false =>
            cases ha : aEnv.agentOutcome with
            | error e =>
                have hw : (withSession aEnv.platform { record_replay := false }
                    (fun _ => aEnv.agentOutcome)).1 = Except.error e := by
                  simp [withSession, ha]
                simp [OagiCua.oagi_tasker_task, hv, ht, hw, okShapeB]
            | ok b =>
                have hw : (withSession aEnv.platform { record_replay := false }
                    (fun _ => aEnv.agentOutcome)).1
                    = Except.ok (b, (aexit aEnv.platform
                        (aenter aEnv.platform { record_replay := false }).1).1) := by
                  simp [withSession, ha]
                simp [OagiCua.oagi_tasker_task, hv, ht, hw, okShapeB, shapeSR]
  · cases hv : strFieldMissing (p4.map (·.instruction)) with
    | true => rw [openagi_default_invalid bEnv p4 hv]; rfl
    | false =>
        cases ha : bEnv.agentOutcome with
        | error e =>
            have hw : (withSession bEnv.platform
                { record_replay := (p4.bind (·.record_replay)).getD false }
                (fun _ => bEnv.agentOutcome)).1 = Except.error e := by
              simp [withSession, ha]
            simp [Openagi.oagi_default_task, hv, hw, okShapeB]
        | ok b =>
            have hw : (withSession bEnv.platform
                { record_replay := (p4.bind (·.record_replay)).getD false }
                (fun _ => bEnv.agentOutcome)).1
                = Except.ok (b, (aexit bEnv.platform
                    (aenter bEnv.platform
                      { record_replay := (p4.bind (·.record_replay)).getD false }).1).1) := by
              simp [withSession, ha]
            cases hu : (aexit bEnv.platform
                (aenter bEnv.platform
                  { record_replay := (p4.bind (·.record_replay)).getD false }).1).1.replay_view_url with
            | none =>
                simp [Openagi.oagi_default_task, hv, hw, hu, okShapeB, shapeSRR, optStrToJ]
            | some u =>
                simp [Openagi.oagi_default_task, hv, hw, hu, okShapeB, shapeSRR, optStrToJ]
  · cases hv : strFieldMissing (p5.map (·.task)) with
    | true => rw [openagi_tasker_invalid_task bEnv p5 hv]; rfl
    | false =>
        cases ht : todosMissing (p5.map (·.todos)) with
        | true => rw [openagi_tasker_invalid_todos bEnv p5 hv ht]; rfl
        | false =>
            cases ha : bEnv.agentOutcome with
            | error e =>
                have hw : (withSession bEnv.platform
                    { record_replay := (p5.bind (·.record_replay)).getD false }
                    (fun _ => bEnv.agentOutcome)).1 = Except.error e := by
                  simp [withSession, ha]
                simp [Openagi.oagi_tasker_task, hv, ht, hw, okShapeB]
            | ok b =>
                have hw : (withSession bEnv.platform
                    { record_replay := (p5.bind (·.record_replay)).getD false }
                    (fun _ => bEnv.agentOutcome)).1
                    = Except.ok (b, (aexit bEnv.platform
                        (aenter bEnv.platform
                          { record_replay := (p5.bind (·.record_replay)).getD false }).1).1) := by
                  simp [withSession, ha]
                cases hu : (aexit bEnv.platform
                    (aenter bEnv.platform
                      { record_replay := (p5.bind (·.record_replay)).getD false }).1).1.replay_view_url with
                | none =>
                    simp [Openagi.oagi_tasker_task, hv, ht, hw, hu, okShapeB, shapeSRR, optStrToJ]
                | some u =>
                    simp [Openagi.oagi_tasker_task, hv, ht, hw, hu, okShapeB, shapeSRR, optStrToJ]

/-- C3 counterexample: with a platform whose readiness poll never succeeds,
teardown still issues a replay-download call, so a download is attempted
contrary to the claim. -/
theorem C3_download_attempted_cex :
    (pollLoop envNeverReady "rep-1" "sess-1" 0 maxWait).1 = none
    ∧ (Event.replayDownload "rep-1" "sess-1")
        ∈ (aexit envNeverReady (aenter envNeverReady ({} : KernelBrowserSession)).1).2
    ∧ (aexit envNeverReady (aenter envNeverReady ({} : KernelBrowserSession)).1).2.getLast?
        = some (Event.deleteSession "sess-1") := by
  refine ⟨rfl, ?_, rfl⟩
  decide

/-- C3 (amended): if the readiness poll never succeeds within the 60-second
budget, teardown still completes — the session is deleted last — a warning
is emitted, and the download is nevertheless attempted (download errors are
swallowed). -/
theorem C3_amended_teardown_after_poll_timeout (α : Type) (env : Env)
    (cfg : KernelBrowserSession) (body : KernelBrowserSession → Except String α)
    (hrec : cfg.record_replay = true)
    (hnever : ∀ i, i < maxWait → attemptReady env env.replayId i = none) :
    (withSession env cfg body).2.getLast? = some (Event.deleteSession env.sessionId)
    ∧ Event.warn "Replay may still be processing" ∈ (withSession env cfg body).2
    ∧ Event.replayDownload env.replayId env.sessionId ∈ (withSession env cfg body).2 := by
  have hs1 := aenter_session_id env cfg
  have hk1 := aenter_kernelClient env cfg
  have hr1 : (aenter env cfg).1.replay_id = some env.replayId := by
    rw [aenter_replay_id, hrec]
    rfl
  have hrec1 : (aenter env cfg).1.record_replay = true := by
    rw [aenter_record_replay, hrec]
  have hx := aexit_never_ready env (aenter env cfg).1 ⟨⟩ env.sessionId env.replayId
    hk1 hs1 hr1 hrec1 hnever
  rw [withSession_trace, hx]
  refine ⟨?_, ?_, ?_⟩
  · rw [← List.append_assoc, List.getLast?_append_cons]
    rfl
  · simp [List.mem_append]
  · cases hd : env.downloadOk <;> simp [hd, List.mem_append]

/-- Witness for C3 (amended) at the never-ready platform. -/
theorem C3_amended_teardown_after_poll_timeout_witness :
    (withSession envNeverReady ({} : KernelBrowserSession)
        (fun _ => (Except.ok true : Except String Bool))).2.getLast?
      = some (Event.deleteSession "sess-1")
    ∧ Event.warn "Replay may still be processing"
        ∈ (withSession envNeverReady ({} : KernelBrowserSession)
            (fun _ => (Except.ok true : Except String Bool))).2
    ∧ Event.replayDownload "rep-1" "sess-1"
        ∈ (withSession envNeverReady ({} : KernelBrowserSession)
            (fun _ => (Except.ok true : Except String Bool))).2 :=
  C3_amended_teardown_after_poll_timeout Bool envNeverReady {}
    (fun _ => Except.ok true) rfl (fun _ _ => rfl)

/-- C7: during the readiness poll every failed attempt (exception or
not-yet-ready alike) is retried after a fixed 1-second sleep; the loop stops
at the first successful attempt or after the 60-attempt budget; and when the
budget expires a warning is emitted while teardown still proceeds to the
session deletion. -/
theorem C7_poll_loop_behaviour (env : Env) (sid rid : String) (j : Nat)
    (r : ReplayInfo) (s : KernelBrowserSession) :
    ((∀ i, i < maxWait → attemptReady env rid i = none) →
        pollLoop env rid sid 0 maxWait = (none, failTrace sid maxWait))
    ∧ (j < maxWait → (∀ i, i < j → attemptReady env rid i = none) →
        attemptReady env rid j = some r →
        pollLoop env rid sid 0 maxWait
          = (some r.replay_view_url, failTrace sid j ++ [Event.replayList sid]))
    ∧ ((∀ i, i < maxWait → attemptReady env rid i = none) →
        s.kernelClient = some ⟨⟩ → s.session_id = some sid →
        s.replay_id = some rid → s.record_replay = true →
        Event.warn "Replay may still be processing" ∈ (aexit env s).2
        ∧ (aexit env s).2.getLast? = some (Event.deleteSession sid)) := by
  refine ⟨?_, ?_, ?_⟩
  · intro h
    exact pollLoop_all_fail env rid sid maxWait 0 (by simpa using h)
  · intro hj hf hsucc
    exact pollLoop_first_success env rid sid r j maxWait 0 hj
      (by simpa using hf) (by simpa using hsucc)
  · intro hnever hk hs hr hrec
    have hx := aexit_never_ready env s ⟨⟩ sid rid hk hs hr hrec hnever
    rw [hx]
    constructor
    · simp [List.mem_append]
    · rw [List.getLast?_append_cons]
      rfl

/-- Witness for C7: the never-ready platform exhausts the budget; the
ready-at-once platform stops the loop at the first attempt; teardown still
deletes the session after the budget expires. -/
theorem C7_poll_loop_behaviour_witness :
    pollLoop envNeverReady "rep-1" "sess-1" 0 maxWait
      = (none, failTrace "sess-1" maxWait)
    ∧ pollLoop envReadyAt0 "rep-1" "sess-1" 0 maxWait
      = (some "http://replay-1", failTrace "sess-1" 0 ++ [Event.replayList "sess-1"])
    ∧ (Event.warn "Replay may still be processing"
        ∈ (aexit envNeverReady
            ({ session_id := some "sess-1", replay_id := some "rep-1",
               kernelClient := some ⟨⟩ } : KernelBrowserSession)).2
       ∧ (aexit envNeverReady
            ({ session_id := some "sess-1", replay_id := some "rep-1",
               kernelClient := some ⟨⟩ } : KernelBrowserSession)).2.getLast?
          = some (Event.deleteSession "sess-1")) := by
  refine ⟨?_, ?_, ?_⟩
  · exact (C7_poll_loop_behaviour envNeverReady "sess-1" "rep-1" 0
      { replay_id := "rep-1", replay_view_url := "http://replay-1" } {}).1
      (fun _ _ => rfl)
  · exact (C7_poll_loop_behaviour envReadyAt0 "sess-1" "rep-1" 0
      { replay_id := "rep-1", replay_view_url := "http://replay-1" } {}).2.1
      (by decide) (fun i hi => absurd hi (Nat.not_lt_zero i)) (by decide)
  · exact (C7_poll_loop_behaviour envNeverReady "sess-1" "rep-1" 0
      { replay_id := "rep-1", replay_view_url := "http://replay-1" }
      { session_id := some "sess-1", replay_id := some "rep-1",
        kernelClient := some ⟨⟩ }).2.2
      (fun _ _ => rfl) rfl rfl rfl rfl

/-- C9: replay stop and download are only ever issued with the replay id
returned by replay start on the same session id; and when `record_replay`
is set but no replay was started, teardown performs no replay call at all. -/
theorem C9_replay_id_discipline (α : Type) (env : Env)
    (cfg s : KernelBrowserSession)
    (body : KernelBrowserSession → Except String α) :
    (s.replay_id = none → noReplayCallsB (aexit env s).2 = true)
    ∧ (withSession env cfg body).2.all (replayArgsOkB env) = true := by
  constructor
  · intro hr
    show (aexitCore env s).2.all _ = true
    rcases hk : s.kernelClient with _ | c
    · rw [aexitCore_inactive env s (Or.inl hk)]
      rfl
    rcases hs : s.session_id with _ | sid
    · rw [aexitCore_inactive env s (Or.inr hs)]
      rfl
    · have hrr : (s.record_replay && s.replay_id.isSome) = false := by
        rw [hr]
        simp
      rw [aexitCore_skip env s c sid hk hs hrr]
      rfl
  · rw [withSession_trace, List.all_append]
    have hA : (aenter env cfg).2.all (replayArgsOkB env) = true := by
      rw [aenter_events]
      cases h : cfg.record_replay <;> simp [replayArgsOkB]
    have hB : (aexit env (aenter env cfg).1).2.all (replayArgsOkB env) = true := by
      apply aexit_args_ok env (aenter env cfg).1 (aenter_session_id env cfg)
      cases h : cfg.record_replay with
      | true =>
          left
          rw [aenter_replay_id, h]
          rfl
      | false =>
          right
          rw [aenter_record_replay, aenter_replay_id, h]
          rfl
    simp [hA, hB]

/-- Witness for C9: a session without a started replay performs no replay
call on teardown; a full run only uses the platform's own ids. -/
theorem C9_replay_id_discipline_witness :
    noReplayCallsB (aexit envReadyAt0
        ({ session_id := some "sess-1", kernelClient := some ⟨⟩ }
          : KernelBrowserSession)).2 = true
    ∧ (withSession envReadyAt0 ({} : KernelBrowserSession)
        (fun _ => (Except.ok true : Except String Bool))).2.all
          (replayArgsOkB envReadyAt0) = true := by
  have h := C9_replay_id_discipline Bool envReadyAt0 {}
    { session_id := some "sess-1", kernelClient := some ⟨⟩ }
    (fun _ => Except.ok true)
  exact ⟨h.1 rfl, h.2⟩

/-- Witness for C10: applying the property to an initialized and to an
uninitialized session. -/
theorem C10_kernel_property_witness :
    ({ kernelClient := some ⟨⟩ } : KernelBrowserSession).kernel = Except.ok ⟨⟩
    ∧ ({ kernelClient := none } : KernelBrowserSession).kernel
        = Except.error "Session not initialized. Use async with context." :=
  ⟨(C10_kernel_property { kernelClient := some ⟨⟩ }).2.1 ⟨⟩ rfl,
   (C10_kernel_property { kernelClient := none }).2.2 rfl⟩

end OnkernelCli
